import Mathlib

/-
Shallow embedding of the Flappy Wind simulation core (src/src/App.tsx).

Modelling conventions:
- JavaScript numbers are modelled as exact rationals; floating-point
  rounding is out of scope.
- Math.sqrt values (stroke length, bird-to-gust distance) are irrational
  in general, so functions that consume a euclidean length take it as an
  explicit parameter and theorems carry the defining hypothesis
  (0 <= len and len squared equals dx^2 + dy^2).  Where the source only
  compares a square root against a bound and then re-squares it
  (applyGustForce), the definition uses the algebraically equal squared
  form; the lemma sqrt_guard_iff records the exact correspondence.
- Math.PI occurs only in the visual rotation clamp of updateBird; it is
  abstracted as the configuration field piQ.
- Math.random occurs in createPipe (gap placement) and createParticles
  (cosmetic burst jitter).  createPipe takes the sampled value u as a
  parameter; particle bursts are abstracted by a burst generator
  parameter of the tick, since no observable property below depends on
  the contents of a burst.
- React state setters (setGameOver, setScore, setWindEnergy) write to
  state that is mirrored into refs between animation frames; a tick
  therefore reads the values latched at its start and the new values
  take effect at the next tick, which the state-passing style models
  directly.  In particular gameOverRef keeps its stale start-of-tick
  value for the whole tick, exactly as in the source.
- Sounds and screen shake are collaborator side effects; the tick
  reports them as event counters (TickEvents).
- Decorative state (clouds, shake decay, pipe colors, particle colors,
  best score persistence, rendering) is outside the simulation core and
  not modelled.
-/

namespace FlappyWind

/-- A 2D point or vector, as used for stroke endpoints. -/
structure Point where
  x : ℚ
  y : ℚ
deriving DecidableEq, Repr

/-- Bird state (source interface Bird, minus the constant color string). -/
structure Bird where
  x : ℚ
  y : ℚ
  radius : ℚ
  vy : ℚ
  vx : ℚ
  rotation : ℚ
deriving DecidableEq, Repr

/-- Pipe-pair obstacle (source interface Pipe, minus the color string). -/
structure Pipe where
  x : ℚ
  topHeight : ℚ
  bottomY : ℚ
  width : ℚ
  gap : ℚ
  passed : Bool
  animationOffset : ℚ
deriving DecidableEq, Repr

/-- Wind gust force field (source interface Gust; the direction record is
flattened into dirx and diry). -/
structure Gust where
  x : ℚ
  y : ℚ
  dirx : ℚ
  diry : ℚ
  magnitude : ℚ
  radius : ℚ
  life : ℚ
  maxLife : ℚ
deriving DecidableEq, Repr

/-- Cosmetic particle (source interface Particle, minus the color string). -/
structure Particle where
  x : ℚ
  y : ℚ
  vx : ℚ
  vy : ℚ
  life : ℚ
  maxLife : ℚ
  size : ℚ
deriving DecidableEq, Repr

/-- Canvas-derived configuration.  W and H are the canvas dimensions and
piQ abstracts the real constant Math.PI (used only in the visual
rotation clamp). -/
structure Config where
  W : ℚ
  H : ℚ
  piQ : ℚ
deriving DecidableEq, Repr

/-- GRAVITY constant from the source. -/
def GRAVITY : ℚ := 800

/-- MAX_WIND_ENERGY constant from the source. -/
def MAX_WIND_ENERGY : ℚ := 100

/-- WIND_REGEN_RATE constant from the source. -/
def WIND_REGEN_RATE : ℚ := 15

/-- GUST_COST_PER_PIXEL constant from the source (0.5). -/
def GUST_COST_PER_PIXEL : ℚ := 1 / 2

/-- GUST_BASE_POWER constant from the source. -/
def GUST_BASE_POWER : ℚ := 1200

/-- GUST_LIFE constant from the source (1.2 seconds). -/
def GUST_LIFE : ℚ := 6 / 5

/-- PIPE_WIDTH, dynamically derived from the canvas width
(Math.max(40, CANVAS_WIDTH * 0.075)). -/
def pipeWidth (cfg : Config) : ℚ := max 40 (cfg.W * (3 / 40))

/-- PIPE_GAP, dynamically derived from the canvas height
(Math.max(120, CANVAS_HEIGHT * 0.25)). -/
def pipeGap (cfg : Config) : ℚ := max 120 (cfg.H * (1 / 4))

/-- PIPE_SPEED, dynamically derived from the canvas width
(Math.max(150, CANVAS_WIDTH * 0.25)). -/
def pipeSpeed (cfg : Config) : ℚ := max 150 (cfg.W * (1 / 4))

/-- GUST_RADIUS, dynamically derived from the canvas width
(Math.max(60, CANVAS_WIDTH * 0.125)). -/
def gustRadius (cfg : Config) : ℚ := max 60 (cfg.W * (1 / 8))

/-- normalize from the source.  The source computes
len = Math.sqrt(vec.x * vec.x + vec.y * vec.y) internally; here the
length is passed explicitly because it is irrational in general, and
theorems carry the hypothesis that len is the euclidean length of v. -/
def normalize (v : Point) (len : ℚ) : Point :=
  if 0 < len then ⟨v.x / len, v.y / len⟩ else ⟨0, 0⟩

/-- createGust from the source.  strokeLength stands for
distance(pStart, pEnd); energy is the current value of windEnergyRef.
Returns the created gust (none when the request is rejected) together
with the resulting energy value, modelling the
setWindEnergy(prev => Math.max(0, prev - cost)) debit; when the request
is rejected the source returns null before any setWindEnergy call, so
the energy is returned unchanged.  The accompanying sound and cosmetic
blue burst are collaborator effects and are not modelled here. -/
def createGust (cfg : Config) (pStart pEnd : Point) (strokeLength energy : ℚ) :
    Option Gust × ℚ :=
  if strokeLength < 20 then (none, energy)
  else
    let cost := min (strokeLength * GUST_COST_PER_PIXEL) energy
    if cost < 10 then (none, energy)
    else
      let dir := normalize ⟨pEnd.x - pStart.x, pEnd.y - pStart.y⟩ strokeLength
      let magnitude := min (strokeLength * 2) GUST_BASE_POWER
      (some { x := pStart.x, y := pStart.y, dirx := dir.x, diry := dir.y,
              magnitude := magnitude, radius := gustRadius cfg,
              life := GUST_LIFE, maxLife := GUST_LIFE },
       max 0 (energy - cost))

/-- createPipe from the source.  u is the Math.random() sample used for
the gap placement; the random pipe color is cosmetic and dropped. -/
def createPipe (cfg : Config) (u x : ℚ) : Pipe :=
  let minTopHeight := cfg.H * (3 / 20)
  let maxTopHeight := cfg.H - pipeGap cfg - cfg.H * (3 / 20)
  let topHeight := u * (maxTopHeight - minTopHeight) + minTopHeight
  { x := x, topHeight := topHeight, bottomY := topHeight + pipeGap cfg,
    width := pipeWidth cfg, gap := pipeGap cfg, passed := false,
    animationOffset := 0 }

/-- Squared euclidean distance between the bird center and a gust origin
(the argument of Math.sqrt inside distance(bird, gust)). -/
def gustDistSq (bird : Bird) (gust : Gust) : ℚ :=
  (bird.x - gust.x) ^ 2 + (bird.y - gust.y) ^ 2

/-- applyGustForce from the source.  The source computes
dist = Math.sqrt(gustDistSq), tests dist < gust.radius and uses
influence = 1 - (dist / gust.radius) ^ 2.  For a positive radius this is
exactly the squared-form test and influence used here, because squaring
is strictly monotone on nonnegatives and (sqrt s / r) ^ 2 = s / r ^ 2;
the lemma sqrt_guard_iff below records the guard correspondence. -/
def applyGustForce (bird : Bird) (gust : Gust) (dt : ℚ) : Bird :=
  let distSq := gustDistSq bird gust
  if distSq < gust.radius ^ 2 then
    let influence := 1 - distSq / gust.radius ^ 2
    let force := gust.magnitude * influence
    { bird with vx := bird.vx + gust.dirx * force * dt,
                vy := bird.vy + gust.diry * force * dt }
  else bird

/-- updateBird from the source.  Returns the updated bird together with
the out-of-bounds flag: when the flag is set the source calls
setGameOver(true) and fires the collision sound, screen shake and red
burst, which the tick below accounts for.  Note the source does not
modify the velocities at the terminal check, and when gameOver is
already latched the whole update is skipped. -/
def updateBird (cfg : Config) (gusts : List Gust) (dt : ℚ) (gameOver : Bool)
    (bird : Bird) : Bird × Bool :=
  if gameOver then (bird, false)
  else
    let b1 := { bird with vy := bird.vy + GRAVITY * dt }
    let b2 := gusts.foldl (fun b g => applyGustForce b g dt) b1
    let b3 := { b2 with vx := b2.vx * (49 / 50) }
    let b4 := { b3 with x := b3.x + b3.vx * dt, y := b3.y + b3.vy * dt }
    let b5 := { b4 with
      rotation := max (-(cfg.piQ / 3)) (min (cfg.piQ / 2) (b4.vy * (3 / 1000))) }
    let b6 := if b5.x < b5.radius then { b5 with x := b5.radius, vx := 0 } else b5
    let b7 := if b6.x > cfg.W - b6.radius
              then { b6 with x := cfg.W - b6.radius, vx := 0 } else b6
    (b7, decide (b7.y < b7.radius ∨ b7.y > cfg.H - b7.radius))

/-- checkCollision from the source: axis-aligned bounding box of the
bird against the two stubs of a pipe pair. -/
def checkCollision (bird : Bird) (pipe : Pipe) : Bool :=
  let birdLeft := bird.x - bird.radius
  let birdRight := bird.x + bird.radius
  let birdTop := bird.y - bird.radius
  let birdBottom := bird.y + bird.radius
  if birdRight > pipe.x ∧ birdLeft < pipe.x + pipe.width then
    if birdTop < pipe.topHeight ∨ birdBottom > pipe.bottomY then true else false
  else false

/-- One pipe of the forEach body of updatePipes: scroll left, advance the
entrance animation, and mark passed (returning true exactly when the
score is incremented and the scoring sound and green burst fire). -/
def pipeStep (cfg : Config) (birdX dt : ℚ) (p : Pipe) : Pipe × Bool :=
  let moved := { p with
    x := p.x - pipeSpeed cfg * dt,
    animationOffset := if p.animationOffset < 1
                       then p.animationOffset + dt * 3 else p.animationOffset }
  if moved.passed = false ∧ moved.x + moved.width < birdX then
    ({ moved with passed := true }, true)
  else (moved, false)

/-- Result of updatePipes: the new pipe list and spawn countdown, the
number of score increments, the positions of the scoring particle
bursts, and whether the collision loop fired the game over effects. -/
structure PipesResult where
  pipes : List Pipe
  nextPipeTime : ℚ
  scoreGain : ℕ
  scoreBursts : List (ℚ × ℚ)
  collided : Bool
deriving DecidableEq, Repr

/-- updatePipes from the source: early return when gameOver is latched,
otherwise scroll and score every pipe, prune pipes fully off screen,
count down the spawn timer (spawning at CANVAS_WIDTH + 50 and resetting
to 2.5), and run the collision loop over the resulting list; the break
in the source means the game over effects fire at most once here, which
is captured by the single collided flag. -/
def updatePipes (cfg : Config) (u : ℚ) (bird : Bird) (dt : ℚ) (gameOver : Bool)
    (pipes : List Pipe) (nextPipeTime : ℚ) : PipesResult :=
  if gameOver then ⟨pipes, nextPipeTime, 0, [], false⟩
  else
    let stepped := pipes.map (pipeStep cfg bird.x dt)
    let scored := (stepped.filter (fun q => q.2)).map (fun q => q.1)
    let moved := stepped.map (fun q => q.1)
    let kept := moved.filter (fun p => decide (p.x > -p.width))
    let t2 := nextPipeTime - dt
    let spawned := if t2 ≤ 0 then (kept ++ [createPipe cfg u (cfg.W + 50)], (5 : ℚ) / 2)
                   else (kept, t2)
    ⟨spawned.1, spawned.2, scored.length,
     scored.map (fun p => (p.x + p.width, p.topHeight + p.gap / 2)),
     spawned.1.any (fun p => checkCollision bird p)⟩

/-- updateParticles from the source: ballistic advance, gravity on vy,
life decay, pruning at zero life. -/
def updateParticles (dt : ℚ) (ps : List Particle) : List Particle :=
  ps.filterMap fun p =>
    let p2 := { p with x := p.x + p.vx * dt, y := p.y + p.vy * dt,
                       vy := p.vy + 200 * dt, life := p.life - dt }
    if p2.life > 0 then some p2 else none

/-- updateGusts from the source: life decay and pruning at zero life. -/
def updateGusts (dt : ℚ) (gs : List Gust) : List Gust :=
  gs.filterMap fun g =>
    let g2 := { g with life := g.life - dt }
    if g2.life > 0 then some g2 else none

/-- updateWindEnergy from the source: regenerate toward
MAX_WIND_ENERGY at WIND_REGEN_RATE, guarded by energy < MAX. -/
def updateWindEnergy (dt e : ℚ) : ℚ :=
  if e < MAX_WIND_ENERGY then min MAX_WIND_ENERGY (e + WIND_REGEN_RATE * dt) else e

/-- The mutable state the game loop closes over: bird, entity
collections, energy, score, elapsed game time, the isGameRunning and
gameOver flags as latched into their refs at the start of a tick, and
the pipe spawn countdown. -/
structure GameState where
  bird : Bird
  pipes : List Pipe
  gusts : List Gust
  particles : List Particle
  windEnergy : ℚ
  score : ℕ
  gameTime : ℚ
  isGameRunning : Bool
  gameOver : Bool
  nextPipeTime : ℚ
deriving DecidableEq, Repr

/-- Collaborator side effects fired during one tick: gameOverFx counts
firings of the collision sound plus screen shake plus red burst (the
three always fire together, at the out-of-bounds site in updateBird and
at the collision site in updatePipes); scoreFx counts score events. -/
structure TickEvents where
  gameOverFx : ℕ
  scoreFx : ℕ
deriving DecidableEq, Repr

/-- One invocation of gameLoop from the source, minus rendering and the
decorative cloud and shake updates.  The dt guard
(deltaTime > 0 && deltaTime < 0.1) discards the whole update otherwise.
updateGameTime advances whenever isGameRunning holds; the bird,
obstacle, gust, particle and energy updates run only while
isGameRunning.  burst abstracts createParticles (10 red particles at
the bird on a game over trigger, 5 green per scored pipe); u is the
Math.random() sample consumed if a pipe spawns.  The gameOver flag read
throughout the tick is the stale start-of-tick ref value, so a bird
out-of-bounds trigger does not suppress the pipe collision check of the
same tick. -/
def tick (cfg : Config) (burst : ℚ → ℚ → ℕ → List Particle) (u dt : ℚ)
    (s : GameState) : GameState × TickEvents :=
  if 0 < dt ∧ dt < 1 / 10 then
    let gameTime2 := if s.isGameRunning then s.gameTime + dt else s.gameTime
    if s.isGameRunning then
      let bd := updateBird cfg s.gusts dt s.gameOver s.bird
      let particles1 := if bd.2 then s.particles ++ burst bd.1.x bd.1.y 10
                        else s.particles
      let pr := updatePipes cfg u bd.1 dt s.gameOver s.pipes s.nextPipeTime
      let particles2 := pr.scoreBursts.foldl (fun acc q => acc ++ burst q.1 q.2 5)
                        particles1
      let particles3 := if pr.collided then particles2 ++ burst bd.1.x bd.1.y 10
                        else particles2
      ({ bird := bd.1,
         pipes := pr.pipes,
         gusts := updateGusts dt s.gusts,
         particles := updateParticles dt particles3,
         windEnergy := updateWindEnergy dt s.windEnergy,
         score := s.score + pr.scoreGain,
         gameTime := gameTime2,
         isGameRunning := s.isGameRunning,
         gameOver := s.gameOver || bd.2 || pr.collided,
         nextPipeTime := pr.nextPipeTime },
       { gameOverFx := (if bd.2 then 1 else 0) + (if pr.collided then 1 else 0),
         scoreFx := pr.scoreGain })
    else
      ({ s with gameTime := gameTime2 }, { gameOverFx := 0, scoreFx := 0 })
  else (s, { gameOverFx := 0, scoreFx := 0 })

/-- Iterated ticks; returns the final state and the total number of
game over effect firings over the whole run segment. -/
def ticks (cfg : Config) (burst : ℚ → ℚ → ℕ → List Particle) :
    List (ℚ × ℚ) → GameState → GameState × ℕ
  | [], s => (s, 0)
  | (u, dt) :: rest, s =>
      let r := tick cfg burst u dt s
      let r2 := ticks cfg burst rest r.1
      (r2.1, r.2.gameOverFx + r2.2)

/-- Iterated pipeStep over a sequence of ticks, each supplying the bird
x and the dt of that tick; returns the final pipe and the total number
of score increments awarded for this pipe. -/
def pipeTicks (cfg : Config) : List (ℚ × ℚ) → Pipe → Pipe × ℕ
  | [], p => (p, 0)
  | (bx, dt) :: rest, p =>
      let r := pipeStep cfg bx dt p
      let r2 := pipeTicks cfg rest r.1
      (r2.1, (if r.2 then 1 else 0) + r2.2)

/-- An operation touching the energy pool: a gust creation request
(carrying the stroke endpoints and stroke length) or a regeneration
tick. -/
inductive EnergyOp where
  | gust : Point → Point → ℚ → EnergyOp
  | regen : ℚ → EnergyOp
deriving DecidableEq, Repr

/-- Effect of one energy operation on the pool, via the source
functions. -/
def energyStep (cfg : Config) (e : ℚ) : EnergyOp → ℚ
  | .gust a b len => (createGust cfg a b len e).2
  | .regen dt => updateWindEnergy dt e

/-- Folding a sequence of energy operations over the pool. -/
def runEnergy (cfg : Config) (ops : List EnergyOp) (e : ℚ) : ℚ :=
  ops.foldl (energyStep cfg) e

/-- Validity of an energy operation: regeneration ticks carry a
nonnegative dt (the game loop guarantees 0 < dt < 0.1). -/
def validOp : EnergyOp → Prop
  | .gust _ _ _ => True
  | .regen dt => 0 ≤ dt

/-- Trivial burst generator used for concrete evaluations (claims never
depend on the cosmetic contents of a burst). -/
def noBurst : ℚ → ℚ → ℕ → List Particle := fun _ _ _ => []

/-- Concrete desktop configuration: 800 x 600 canvas.  piQ is
irrelevant to every observable property below and is set to 0. -/
def cfg0 : Config := ⟨800, 600, 0⟩

/-- Concrete post-game-over state reachable in the source: after a
terminal collision the source sets gameOver but never clears
isGameRunning, so the update block of gameLoop keeps executing. -/
def sOver : GameState :=
  { bird := ⟨100, 300, 15, 0, 0, 0⟩, pipes := [],
    gusts := [⟨0, 0, 1, 0, 100, 100, 6 / 5, 6 / 5⟩], particles := [],
    windEnergy := 50, score := 0, gameTime := 0,
    isGameRunning := true, gameOver := true, nextPipeTime := 5 / 2 }

/-- Concrete running state in which one tick makes the bird leave the
top bound and simultaneously collide with a pipe. -/
def sDouble : GameState :=
  { bird := ⟨100, 10, 15, 0, 0, 0⟩,
    pipes := [⟨50, 100, 250, 60, 150, false, 1⟩],
    gusts := [], particles := [],
    windEnergy := 100, score := 0, gameTime := 0,
    isGameRunning := true, gameOver := false, nextPipeTime := 5 / 2 }

/-- The gust of the specification scenario: origin (400, 300), radius
100, magnitude 1200, direction (1, 0), life 1.2. -/
def gust0 : Gust := ⟨400, 300, 1, 0, 1200, 100, 6 / 5, 6 / 5⟩

/-- Scenario bird inside the influence radius of gust0. -/
def birdNear : Bird := ⟨350, 300, 15, 0, 0, 0⟩

/-- Scenario bird outside the influence radius of gust0. -/
def birdFar : Bird := ⟨600, 300, 15, 0, 0, 0⟩

/-- Correspondence between the square-root guard of the source and the
squared-form guard used in applyGustForce: for a nonnegative distance d
with d squared equal to s and a positive radius r, the source test
d < r is exactly the embedded test s < r ^ 2. -/
theorem sqrt_guard_iff (d r s : ℚ) (hd : 0 ≤ d) (hr : 0 < r) (hs : d ^ 2 = s) :
    (d < r ↔ s < r ^ 2) := by
  subst hs
  constructor
  · intro h; nlinarith
  · intro h; nlinarith

/-- While gameOver is latched at tick start and isGameRunning still
holds, a valid-dt tick leaves the bird, pipes, score and spawn timer
untouched, fires no effects, and still applies the gust decay, particle
decay, energy regeneration and game-time advance. -/
theorem tick_over_eq (cfg : Config) (burst : ℚ → ℚ → ℕ → List Particle)
    (u dt : ℚ) (s : GameState) (h1 : 0 < dt) (h2 : dt < 1 / 10)
    (hover : s.gameOver = true) (hrun : s.isGameRunning = true) :
    tick cfg burst u dt s =
      ({ s with gusts := updateGusts dt s.gusts,
                particles := updateParticles dt s.particles,
                windEnergy := updateWindEnergy dt s.windEnergy,
                gameTime := s.gameTime + dt },
       { gameOverFx := 0, scoreFx := 0 }) := by
  simp [tick, updateBird, updatePipes, hover, hrun, h1, h2]
  intro h
  exact absurd h (by simpa using not_le.mpr h2)

/-- Once gameOver is observed true at tick start, one tick fires no
game over effects and keeps the latch set, for every dt. -/
theorem tick_latched_aux (cfg : Config) (burst : ℚ → ℚ → ℕ → List Particle)
    (u dt : ℚ) (s : GameState) (h : s.gameOver = true) :
    (tick cfg burst u dt s).2.gameOverFx = 0 ∧
    (tick cfg burst u dt s).1.gameOver = true := by
  by_cases hdt : 0 < dt ∧ dt < 1 / 10
  · by_cases hrun : s.isGameRunning = true
    · rw [tick_over_eq cfg burst u dt s hdt.1 hdt.2 h hrun]
      exact ⟨rfl, h⟩
    · simp only [tick, if_pos hdt, if_neg hrun]
      exact ⟨trivial, h⟩
  · simp only [tick, if_neg hdt]
    exact ⟨trivial, h⟩

/-- A single tick fires the game over effect bundle at most twice: once
from the out-of-bounds site and once from the collision site. -/
theorem tick_fx_le_two (cfg : Config) (burst : ℚ → ℚ → ℕ → List Particle)
    (u dt : ℚ) (s : GameState) :
    (tick cfg burst u dt s).2.gameOverFx ≤ 2 := by
  by_cases hdt : 0 < dt ∧ dt < 1 / 10
  · by_cases hrun : s.isGameRunning = true
    · simp only [tick, if_pos hdt, hrun, if_true]
      split <;> split <;> norm_num
    · simp only [tick, if_pos hdt, if_neg hrun]
      norm_num
  · simp only [tick, if_neg hdt]
    norm_num

/-- applyGustForce never changes the bird position, radius or
rotation. -/
theorem applyGustForce_pos (b : Bird) (g : Gust) (dt : ℚ) :
    (applyGustForce b g dt).x = b.x ∧ (applyGustForce b g dt).y = b.y ∧
    (applyGustForce b g dt).radius = b.radius ∧
    (applyGustForce b g dt).rotation = b.rotation := by
  simp only [applyGustForce]
  split <;> simp

/-- The velocity increment applyGustForce adds depends only on the bird
position, not on its velocity. -/
theorem applyGustForce_delta (b b2 : Bird) (g : Gust) (dt : ℚ)
    (hx : b2.x = b.x) (hy : b2.y = b.y) :
    (applyGustForce b2 g dt).vx - b2.vx = (applyGustForce b g dt).vx - b.vx ∧
    (applyGustForce b2 g dt).vy - b2.vy = (applyGustForce b g dt).vy - b.vy := by
  have hdist : gustDistSq b2 g = gustDistSq b g := by simp [gustDistSq, hx, hy]
  by_cases hlt : gustDistSq b g < g.radius ^ 2
  · simp only [applyGustForce, hdist, if_pos hlt]
    constructor <;> ring
  · simp only [applyGustForce, hdist, if_neg hlt]
    constructor <;> ring

/-- The gust loop of updateBird superposes velocity contributions
additively and leaves the position unchanged. -/
theorem foldl_gustForce (dt : ℚ) (gs : List Gust) : ∀ b : Bird,
    (gs.foldl (fun b2 g => applyGustForce b2 g dt) b).x = b.x ∧
    (gs.foldl (fun b2 g => applyGustForce b2 g dt) b).y = b.y ∧
    (gs.foldl (fun b2 g => applyGustForce b2 g dt) b).vx
      = b.vx + (gs.map (fun g => (applyGustForce b g dt).vx - b.vx)).sum ∧
    (gs.foldl (fun b2 g => applyGustForce b2 g dt) b).vy
      = b.vy + (gs.map (fun g => (applyGustForce b g dt).vy - b.vy)).sum := by
  induction gs with
  | nil => intro b; simp
  | cons g rest ih =>
      intro b
      obtain ⟨hpx, hpy, hpr, hprot⟩ := applyGustForce_pos b g dt
      obtain ⟨ihx, ihy, ihvx, ihvy⟩ := ih (applyGustForce b g dt)
      have hmapx : rest.map
            (fun g2 => (applyGustForce (applyGustForce b g dt) g2 dt).vx
              - (applyGustForce b g dt).vx)
          = rest.map (fun g2 => (applyGustForce b g2 dt).vx - b.vx) := by
        apply List.map_congr_left
        intro g2 _
        exact (applyGustForce_delta b (applyGustForce b g dt) g2 dt hpx hpy).1
      have hmapy : rest.map
            (fun g2 => (applyGustForce (applyGustForce b g dt) g2 dt).vy
              - (applyGustForce b g dt).vy)
          = rest.map (fun g2 => (applyGustForce b g2 dt).vy - b.vy) := by
        apply List.map_congr_left
        intro g2 _
        exact (applyGustForce_delta b (applyGustForce b g dt) g2 dt hpx hpy).2
      refine ⟨?_, ?_, ?_, ?_⟩
      · simpa [List.foldl_cons, hpx] using ihx
      · simpa [List.foldl_cons, hpy] using ihy
      · rw [List.foldl_cons, ihvx, hmapx, List.map_cons, List.sum_cons]
        ring
      · rw [List.foldl_cons, ihvy, hmapy, List.map_cons, List.sum_cons]
        ring


/-- C1 counterexample: in the reachable Over state sOver (gameOver
latched, isGameRunning still true as the source leaves it), one valid
tick regenerates energy, advances game time and decays the gust, so the
claim that gusts, energy and elapsed time are unchanged while Over is
false on the code. -/
theorem over_tick_not_suspended_cx :
    sOver.gameOver = true ∧ sOver.isGameRunning = true ∧
    (tick cfg0 noBurst 0 (1 / 100) sOver).1.windEnergy ≠ sOver.windEnergy ∧
    (tick cfg0 noBurst 0 (1 / 100) sOver).1.gameTime ≠ sOver.gameTime ∧
    (tick cfg0 noBurst 0 (1 / 100) sOver).1.gusts ≠ sOver.gusts := by
  have h := tick_over_eq cfg0 noBurst 0 (1 / 100) sOver (by norm_num) (by norm_num)
    rfl rfl
  refine ⟨rfl, rfl, ?_, ?_, ?_⟩ <;> rw [h] <;>
    norm_num [sOver, updateWindEnergy, updateGusts, MAX_WIND_ENERGY,
      WIND_REGEN_RATE, List.filterMap, min_def]

/-- C1 (amended): while the run state is Over and until restart, a
valid tick suspends only the bird and obstacle updates (and fires no
effects); the gust collection still decays, the energy pool still
regenerates, and the elapsed game time still advances, because the
source never clears isGameRunning at game over and updateGusts,
updateWindEnergy and updateGameTime carry no gameOver guard. -/
theorem over_tick_suspends_only_bird_and_pipes (cfg : Config)
    (burst : ℚ → ℚ → ℕ → List Particle) (u dt : ℚ) (s : GameState)
    (h1 : 0 < dt) (h2 : dt < 1 / 10) (hover : s.gameOver = true)
    (hrun : s.isGameRunning = true) :
    (tick cfg burst u dt s).1.bird = s.bird ∧
    (tick cfg burst u dt s).1.pipes = s.pipes ∧
    (tick cfg burst u dt s).1.score = s.score ∧
    (tick cfg burst u dt s).1.nextPipeTime = s.nextPipeTime ∧
    (tick cfg burst u dt s).1.gameOver = true ∧
    (tick cfg burst u dt s).2 = { gameOverFx := 0, scoreFx := 0 } ∧
    (tick cfg burst u dt s).1.gusts = updateGusts dt s.gusts ∧
    (tick cfg burst u dt s).1.windEnergy = updateWindEnergy dt s.windEnergy ∧
    (tick cfg burst u dt s).1.gameTime = s.gameTime + dt := by
  rw [tick_over_eq cfg burst u dt s h1 h2 hover hrun]
  exact ⟨rfl, rfl, rfl, rfl, hover, rfl, rfl, rfl, rfl⟩

/-- C1 witness: the amended theorem applied to the concrete Over state
sOver with dt = 1/100. -/
theorem over_tick_suspends_witness :
    (tick cfg0 noBurst 0 (1 / 100) sOver).1.bird = sOver.bird ∧
    (tick cfg0 noBurst 0 (1 / 100) sOver).1.pipes = sOver.pipes ∧
    (tick cfg0 noBurst 0 (1 / 100) sOver).1.score = sOver.score ∧
    (tick cfg0 noBurst 0 (1 / 100) sOver).1.nextPipeTime = sOver.nextPipeTime ∧
    (tick cfg0 noBurst 0 (1 / 100) sOver).1.gameOver = true ∧
    (tick cfg0 noBurst 0 (1 / 100) sOver).2 = { gameOverFx := 0, scoreFx := 0 } ∧
    (tick cfg0 noBurst 0 (1 / 100) sOver).1.gusts = updateGusts (1 / 100) sOver.gusts ∧
    (tick cfg0 noBurst 0 (1 / 100) sOver).1.windEnergy
      = updateWindEnergy (1 / 100) sOver.windEnergy ∧
    (tick cfg0 noBurst 0 (1 / 100) sOver).1.gameTime = sOver.gameTime + 1 / 100 :=
  over_tick_suspends_only_bird_and_pipes cfg0 noBurst 0 (1 / 100) sOver
    (by norm_num) (by norm_num) rfl rfl

/-- C2: a tick whose dt is nonpositive or at least 0.1 seconds is
discarded entirely: the whole state (bird, obstacles, gusts, particles,
energy, score, game time, flags, spawn timer) is returned unchanged and
no effects fire. -/
theorem bad_dt_tick_discarded (cfg : Config)
    (burst : ℚ → ℚ → ℕ → List Particle) (u dt : ℚ) (s : GameState)
    (h : dt ≤ 0 ∨ (1 / 10 : ℚ) ≤ dt) :
    tick cfg burst u dt s = (s, { gameOverFx := 0, scoreFx := 0 }) := by
  have hn : ¬(0 < dt ∧ dt < 1 / 10) := by
    rintro ⟨hc1, hc2⟩
    rcases h with h | h <;> linarith
  rw [tick, if_neg hn]

/-- C2 witness: a 0.2 second tick on the concrete state sDouble is a
no-op. -/
theorem bad_dt_tick_discarded_witness :
    tick cfg0 noBurst 0 (1 / 5) sDouble
      = (sDouble, { gameOverFx := 0, scoreFx := 0 }) :=
  bad_dt_tick_discarded cfg0 noBurst 0 (1 / 5) sDouble (Or.inr (by norm_num))


/-- C3 counterexample: a tick that drives the bird above the top bound
sets the out-of-bounds flag (the source then latches gameOver) but
leaves the velocity at its integrated value -92 instead of zeroing it,
so the claim that the terminal transition zeroes vx and vy is false on
the code. -/
theorem death_keeps_velocity_cx :
    (updateBird cfg0 [] (1 / 100) false ⟨100, 5, 15, -100, 0, 0⟩).2 = true ∧
    (updateBird cfg0 [] (1 / 100) false ⟨100, 5, 15, -100, 0, 0⟩).1.vy = -92 ∧
    (updateBird cfg0 [] (1 / 100) false ⟨100, 5, 15, -100, 0, 0⟩).1.vy ≠ 0 := by
  norm_num [updateBird, applyGustForce, gustDistSq, cfg0, GRAVITY]

/-- C3 (amended): whenever after integration the bird satisfies
y < radius or y > canvasHeight - radius, the tick latches the Over
state; the bird (velocities included) is left exactly as the update
computed it, not zeroed. -/
theorem oob_latches_over_iff :
    (∀ (cfg : Config) (gusts : List Gust) (dt : ℚ) (bird b2 : Bird) (dead : Bool),
       updateBird cfg gusts dt false bird = (b2, dead) →
       (dead = true ↔ (b2.y < b2.radius ∨ b2.y > cfg.H - b2.radius))) ∧
    (∀ (cfg : Config) (burst : ℚ → ℚ → ℕ → List Particle) (u dt : ℚ)
       (s : GameState) (b2 : Bird), 0 < dt → dt < 1 / 10 →
       s.isGameRunning = true → s.gameOver = false →
       updateBird cfg s.gusts dt false s.bird = (b2, true) →
       (tick cfg burst u dt s).1.gameOver = true ∧
       (tick cfg burst u dt s).1.bird = b2) := by
  constructor
  · intro cfg gusts dt bird b2 dead h
    simp only [updateBird, Bool.false_eq_true, if_false, Prod.mk.injEq] at h
    obtain ⟨h1, h2⟩ := h
    subst h1
    subst h2
    exact decide_eq_true_iff
  · intro cfg burst u dt s b2 h1 h2 hrun hnov heq
    have h2i : dt < (10 : ℚ)⁻¹ := by simpa using h2
    simp [tick, h1, h2, h2i, hrun, hnov, heq]

/-- C3 witness: the amended theorem applied to the concrete
out-of-bounds tick of the counterexample. -/
theorem oob_latches_over_witness :
    (true = true ↔ ((102 / 25 : ℚ) < 15 ∨ (102 / 25 : ℚ) > 600 - 15)) :=
  oob_latches_over_iff.1 cfg0 [] (1 / 100) ⟨100, 5, 15, -100, 0, 0⟩
    ⟨100, 102 / 25, 15, -92, 0, 0⟩ true
    (by norm_num [updateBird, applyGustForce, gustDistSq, cfg0, GRAVITY])

/-- C4 counterexample: from the running state sDouble the single tick
that ends the run fires the game over effect bundle twice, once at the
out-of-bounds site of updateBird and once at the collision site of
updatePipes (the stale gameOverRef does not suppress the second site in
the same tick), so the effects do not occur exactly once per run. -/
theorem double_gameover_fx_cx :
    sDouble.gameOver = false ∧
    (tick cfg0 noBurst 0 (1 / 100) sDouble).2.gameOverFx = 2 := by
  refine ⟨rfl, ?_⟩
  norm_num [tick, updateBird, updatePipes, pipeStep, checkCollision, updateGusts,
    updateParticles, updateWindEnergy, applyGustForce, gustDistSq, createPipe,
    createGust, normalize, cfg0, noBurst, sDouble, GRAVITY, MAX_WIND_ENERGY,
    WIND_REGEN_RATE, pipeSpeed, pipeWidth, pipeGap, gustRadius, GUST_LIFE,
    GUST_BASE_POWER, GUST_COST_PER_PIXEL, List.filterMap]

/-- C4 (amended): once the Over latch is observed at a tick start,
every later tick before restart fires zero game over effects and keeps
the latch; within the single latching tick, the out-of-bounds site and
the collision site can each fire once, so a tick fires the bundle at
most twice. -/
theorem over_latch_after_observation :
    (∀ (cfg : Config) (burst : ℚ → ℚ → ℕ → List Particle) (u dt : ℚ)
       (s : GameState), s.gameOver = true →
       (tick cfg burst u dt s).2.gameOverFx = 0 ∧
       (tick cfg burst u dt s).1.gameOver = true) ∧
    (∀ (cfg : Config) (burst : ℚ → ℚ → ℕ → List Particle) (l : List (ℚ × ℚ))
       (s : GameState), s.gameOver = true →
       (ticks cfg burst l s).2 = 0 ∧ (ticks cfg burst l s).1.gameOver = true) ∧
    (∀ (cfg : Config) (burst : ℚ → ℚ → ℕ → List Particle) (u dt : ℚ)
       (s : GameState), (tick cfg burst u dt s).2.gameOverFx ≤ 2) := by
  refine ⟨fun cfg burst u dt s h => tick_latched_aux cfg burst u dt s h, ?_,
    fun cfg burst u dt s => tick_fx_le_two cfg burst u dt s⟩
  intro cfg burst l
  induction l with
  | nil => intro s h; exact ⟨rfl, h⟩
  | cons p rest ih =>
      intro s h
      obtain ⟨u, dt⟩ := p
      have ha := tick_latched_aux cfg burst u dt s h
      have hb := ih _ ha.2
      simp [ticks, ha.1, hb.1, hb.2]

/-- C4 witness: two ticks taken from the latched state sOver fire no
further game over effects and keep the latch. -/
theorem over_latch_witness :
    (ticks cfg0 noBurst [(0, 1 / 100), (0, 1 / 50)] sOver).2 = 0 ∧
    (ticks cfg0 noBurst [(0, 1 / 100), (0, 1 / 50)] sOver).1.gameOver = true :=
  over_latch_after_observation.2.1 cfg0 noBurst [(0, 1 / 100), (0, 1 / 50)]
    sOver rfl


/-- C5: a gust creation request with stroke length below 20, or with
cost min(strokeLength * costPerPixel, energy) below the floor 10,
creates no gust and leaves the energy pool untouched. -/
theorem gust_request_rejected_no_debit (cfg : Config) (a b : Point)
    (strokeLength energy : ℚ)
    (h : strokeLength < 20 ∨
         min (strokeLength * GUST_COST_PER_PIXEL) energy < 10) :
    createGust cfg a b strokeLength energy = (none, energy) := by
  rcases h with h | h
  · simp [createGust, h]
  · rcases lt_or_le strokeLength 20 with h2 | h2
    · simp [createGust, h2]
    · simp [createGust, not_lt.mpr h2, h]

/-- C5 witness: a 10 pixel stroke is rejected without debit even at
full energy. -/
theorem gust_request_rejected_witness :
    createGust cfg0 ⟨0, 0⟩ ⟨10, 0⟩ 10 100 = (none, 100) :=
  gust_request_rejected_no_debit cfg0 ⟨0, 0⟩ ⟨10, 0⟩ 10 100
    (Or.inl (by norm_num))

/-- One energy operation keeps the pool inside the range
[0, MAX_WIND_ENERGY]. -/
theorem energyStep_bounds (cfg : Config) (e : ℚ) (op : EnergyOp)
    (hop : validOp op) (h0 : 0 ≤ e) (h1 : e ≤ MAX_WIND_ENERGY) :
    0 ≤ energyStep cfg e op ∧ energyStep cfg e op ≤ MAX_WIND_ENERGY := by
  cases op with
  | gust a b len =>
      simp only [energyStep, createGust]
      split
      · exact ⟨h0, h1⟩
      · split
        · exact ⟨h0, h1⟩
        · rename_i hcost
          constructor
          · exact le_max_left 0 _
          · have hc : (10 : ℚ) ≤ min (len * GUST_COST_PER_PIXEL) e :=
              not_lt.mp hcost
            have hle : e - min (len * GUST_COST_PER_PIXEL) e ≤ e := by linarith
            calc max 0 (e - min (len * GUST_COST_PER_PIXEL) e)
                ≤ max 0 e := max_le_max le_rfl hle
              _ ≤ MAX_WIND_ENERGY := by rw [max_eq_right h0]; exact h1
  | regen dt =>
      have hdt : 0 ≤ dt := hop
      simp only [energyStep, updateWindEnergy]
      split
      · constructor
        · apply le_min
          · norm_num [MAX_WIND_ENERGY]
          · have hterm : (0 : ℚ) ≤ WIND_REGEN_RATE * dt := by
              have : (0 : ℚ) ≤ WIND_REGEN_RATE := by norm_num [WIND_REGEN_RATE]
              exact mul_nonneg this hdt
            linarith
        · exact min_le_left _ _
      · exact ⟨h0, h1⟩

/-- C6: starting from any energy in [0, MAX_WIND_ENERGY], any sequence
of gust creation requests and nonnegative-dt regeneration ticks keeps
the energy inside [0, MAX_WIND_ENERGY]. -/
theorem wind_energy_in_range (cfg : Config) (ops : List EnergyOp) :
    ∀ e : ℚ, 0 ≤ e → e ≤ MAX_WIND_ENERGY → (∀ op ∈ ops, validOp op) →
    0 ≤ runEnergy cfg ops e ∧ runEnergy cfg ops e ≤ MAX_WIND_ENERGY := by
  induction ops with
  | nil => intro e h0 h1 _; exact ⟨h0, h1⟩
  | cons op rest ih =>
      intro e h0 h1 hops
      have hstep := energyStep_bounds cfg e op
        (hops op (List.mem_cons_self op rest)) h0 h1
      have hrest := ih (energyStep cfg e op) hstep.1 hstep.2
        (fun o ho => hops o (List.mem_cons_of_mem op ho))
      simpa [runEnergy, List.foldl_cons] using hrest

/-- C6 witness: one successful 50 pixel gust (debit 25) followed by a
regeneration tick keeps the pool in range starting from 100. -/
theorem wind_energy_in_range_witness :
    0 ≤ runEnergy cfg0
        [EnergyOp.gust ⟨0, 0⟩ ⟨30, 40⟩ 50, EnergyOp.regen (1 / 50)] 100 ∧
    runEnergy cfg0
        [EnergyOp.gust ⟨0, 0⟩ ⟨30, 40⟩ 50, EnergyOp.regen (1 / 50)] 100
      ≤ MAX_WIND_ENERGY :=
  wind_energy_in_range cfg0
    [EnergyOp.gust ⟨0, 0⟩ ⟨30, 40⟩ 50, EnergyOp.regen (1 / 50)] 100
    (by norm_num) (by norm_num [MAX_WIND_ENERGY])
    (by
      intro op hop
      simp only [List.mem_cons, List.not_mem_nil, or_false] at hop
      rcases hop with rfl | rfl
      · trivial
      · norm_num [validOp])


/-- C7: the gust force field model.  For the real distance d between
bird and gust origin (characterised by its square), the contribution is
zero at or beyond the radius, and inside the radius it adds
magnitude * (1 - (d / radius) ^ 2) * dt along the gust direction;
contributions of a list of gusts superpose additively; the
specification scenario values follow: the bird at (350, 300) gains
vx = 900 * dt from gust0 and the bird at (600, 300) gains nothing. -/
theorem gust_force_model :
    (∀ (b : Bird) (g : Gust) (d dt : ℚ), 0 ≤ d → d ^ 2 = gustDistSq b g →
       0 < g.radius → g.radius ≤ d → applyGustForce b g dt = b) ∧
    (∀ (b : Bird) (g : Gust) (d dt : ℚ), 0 ≤ d → d ^ 2 = gustDistSq b g →
       0 < g.radius → d < g.radius →
       applyGustForce b g dt =
         { b with
           vx := b.vx + g.dirx * (g.magnitude * (1 - (d / g.radius) ^ 2)) * dt,
           vy := b.vy + g.diry * (g.magnitude * (1 - (d / g.radius) ^ 2)) * dt }) ∧
    (∀ (b : Bird) (gs : List Gust) (dt : ℚ),
       (gs.foldl (fun b2 g => applyGustForce b2 g dt) b).vx
         = b.vx + (gs.map (fun g => (applyGustForce b g dt).vx - b.vx)).sum ∧
       (gs.foldl (fun b2 g => applyGustForce b2 g dt) b).vy
         = b.vy + (gs.map (fun g => (applyGustForce b g dt).vy - b.vy)).sum) ∧
    (∀ dt : ℚ, (applyGustForce birdNear gust0 dt).vx = 900 * dt) ∧
    (∀ dt : ℚ, applyGustForce birdFar gust0 dt = birdFar) := by
  refine ⟨?_, ?_, ?_, ?_, ?_⟩
  · intro b g d dt hd hsq hr hge
    have hnot : ¬ gustDistSq b g < g.radius ^ 2 := by
      rw [← hsq]
      push_neg
      nlinarith
    simp [applyGustForce, hnot]
  · intro b g d dt hd hsq hr hlt
    have hpos : gustDistSq b g < g.radius ^ 2 := by
      rw [← hsq]
      nlinarith
    simp only [applyGustForce, if_pos hpos]
    rw [← hsq, div_pow]
  · intro b gs dt
    have h := foldl_gustForce dt gs b
    exact ⟨h.2.2.1, h.2.2.2⟩
  · intro dt
    norm_num [applyGustForce, gustDistSq, birdNear, gust0]
  · intro dt
    norm_num [applyGustForce, gustDistSq, birdFar, gust0]

/-- C7 witness: the zero-outside clause applied to the scenario bird at
(600, 300), whose distance to gust0 is exactly 200 and exceeds the
radius 100. -/
theorem gust_force_model_witness :
    applyGustForce birdFar gust0 (1 / 100) = birdFar :=
  gust_force_model.1 birdFar gust0 200 (1 / 100) (by norm_num)
    (by norm_num [gustDistSq, birdFar, gust0]) (by norm_num [gust0])
    (by norm_num [gust0])

/-- The spawn placement bounds: the gap is exact and topHeight stays in
the margin band, provided the configured gap does not exceed 0.7 of the
canvas height. -/
theorem createPipe_bounds (cfg : Config) (u x : ℚ) (hu0 : 0 ≤ u) (hu1 : u < 1)
    (hgap : pipeGap cfg ≤ (7 / 10) * cfg.H) (_hH : 0 ≤ cfg.H) :
    (createPipe cfg u x).bottomY - (createPipe cfg u x).topHeight = pipeGap cfg ∧
    cfg.H * (3 / 20) ≤ (createPipe cfg u x).topHeight ∧
    (createPipe cfg u x).topHeight ≤ cfg.H - pipeGap cfg - cfg.H * (3 / 20) := by
  have hR : 0 ≤ (7 / 10) * cfg.H - pipeGap cfg := by linarith
  refine ⟨?_, ?_, ?_⟩
  · simp [createPipe]
  · simp only [createPipe]
    nlinarith [mul_nonneg hu0 hR]
  · simp only [createPipe]
    nlinarith [mul_nonneg (by linarith : (0 : ℚ) ≤ 1 - u) hR]

/-- C8: for every configuration with gap at most 0.7 of the height and
every random sample u in [0, 1), the spawned obstacle satisfies
bottomY - topHeight = gap exactly and topHeight lies in
[H * 0.15, H - gap - H * 0.15]; for the 800 x 600 configuration the gap
is 150 and topHeight always lies in [90, 360]. -/
theorem pipe_spawn_gap_and_bounds :
    (∀ (cfg : Config) (u x : ℚ), 0 ≤ u → u < 1 →
       pipeGap cfg ≤ (7 / 10) * cfg.H → 0 ≤ cfg.H →
       (createPipe cfg u x).bottomY - (createPipe cfg u x).topHeight
           = pipeGap cfg ∧
       cfg.H * (3 / 20) ≤ (createPipe cfg u x).topHeight ∧
       (createPipe cfg u x).topHeight
           ≤ cfg.H - pipeGap cfg - cfg.H * (3 / 20)) ∧
    pipeGap cfg0 = 150 ∧
    (∀ u x : ℚ, 0 ≤ u → u < 1 →
       90 ≤ (createPipe cfg0 u x).topHeight ∧
       (createPipe cfg0 u x).topHeight ≤ 360) := by
  have hgap0 : pipeGap cfg0 = 150 := by
    rw [pipeGap]
    have h1 : cfg0.H * (1 / 4) = 150 := by norm_num [cfg0]
    rw [h1]
    exact max_eq_right (by norm_num)
  refine ⟨fun cfg u x h1 h2 h3 h4 => createPipe_bounds cfg u x h1 h2 h3 h4,
    hgap0, ?_⟩
  intro u x hu0 hu1
  have h := createPipe_bounds cfg0 u x hu0 hu1
    (by rw [hgap0]; norm_num [cfg0]) (by norm_num [cfg0])
  obtain ⟨-, h21, h22⟩ := h
  constructor
  · have hlow : cfg0.H * (3 / 20) = 90 := by norm_num [cfg0]
    rw [hlow] at h21
    exact h21
  · have hhigh : cfg0.H - pipeGap cfg0 - cfg0.H * (3 / 20) = 360 := by
      rw [hgap0]; norm_num [cfg0]
    rw [hhigh] at h22
    exact h22

/-- C8 witness: the concrete bounds at the midpoint sample. -/
theorem pipe_spawn_witness :
    90 ≤ (createPipe cfg0 (1 / 2) 850).topHeight ∧
    (createPipe cfg0 (1 / 2) 850).topHeight ≤ 360 :=
  pipe_spawn_gap_and_bounds.2.2 (1 / 2) 850 (by norm_num) (by norm_num)


/-- C9: an obstacle scores exactly when it is not yet passed and its
trailing edge (post-scroll x plus width) is behind the bird x; scoring
marks it passed; the passed mark is preserved by every later step; and
a passed obstacle never contributes another score increment over any
sequence of later ticks. -/
theorem pipe_scored_exactly_once :
    (∀ (cfg : Config) (bx dt : ℚ) (p : Pipe),
       (pipeStep cfg bx dt p).2 = true ↔
       (p.passed = false ∧ p.x - pipeSpeed cfg * dt + p.width < bx)) ∧
    (∀ (cfg : Config) (bx dt : ℚ) (p : Pipe),
       (pipeStep cfg bx dt p).2 = true →
       (pipeStep cfg bx dt p).1.passed = true) ∧
    (∀ (cfg : Config) (bx dt : ℚ) (p : Pipe),
       p.passed = true → (pipeStep cfg bx dt p).1.passed = true) ∧
    (∀ (cfg : Config) (l : List (ℚ × ℚ)) (p : Pipe),
       p.passed = true → (pipeTicks cfg l p).2 = 0) := by
  have hstep : ∀ (cfg : Config) (bx dt : ℚ) (p : Pipe),
      (pipeStep cfg bx dt p).2 = true ↔
      (p.passed = false ∧ p.x - pipeSpeed cfg * dt + p.width < bx) := by
    intro cfg bx dt p
    simp only [pipeStep]
    split
    · rename_i hcond
      exact iff_of_true rfl (by simpa using hcond)
    · rename_i hcond
      exact iff_of_false (by simp) (by simpa using hcond)
  have hmark : ∀ (cfg : Config) (bx dt : ℚ) (p : Pipe),
      (pipeStep cfg bx dt p).2 = true →
      (pipeStep cfg bx dt p).1.passed = true := by
    intro cfg bx dt p h
    have hc := (hstep cfg bx dt p).mp h
    simp only [pipeStep]
    rw [if_pos (by simpa using hc)]
  have hkeep : ∀ (cfg : Config) (bx dt : ℚ) (p : Pipe),
      p.passed = true → (pipeStep cfg bx dt p).1.passed = true := by
    intro cfg bx dt p hp
    simp only [pipeStep]
    split
    · rename_i hcond
      have h1 : p.passed = false := by simpa using hcond.1
      simp [hp] at h1
    · simp [hp]
  refine ⟨hstep, hmark, hkeep, ?_⟩
  intro cfg l
  induction l with
  | nil => intro p hp; rfl
  | cons q rest ih =>
      intro p hp
      obtain ⟨bx, dt⟩ := q
      have hflag : (pipeStep cfg bx dt p).2 = false := by
        cases hb : (pipeStep cfg bx dt p).2
        · rfl
        · have hc := (hstep cfg bx dt p).mp hb
          rw [hp] at hc
          simp at hc
      have hrest := ih (pipeStep cfg bx dt p).1 (hkeep cfg bx dt p hp)
      simp [pipeTicks, hflag, hrest]

/-- C9 witness: an already-passed obstacle gains no score over two
further ticks. -/
theorem pipe_scored_once_witness :
    (pipeTicks cfg0 [(100, 1 / 100), (100, 1 / 50)]
        ⟨50, 100, 250, 60, 150, true, 1⟩).2 = 0 :=
  pipe_scored_exactly_once.2.2.2 cfg0 [(100, 1 / 100), (100, 1 / 50)]
    ⟨50, 100, 250, 60, 150, true, 1⟩ rfl

/-- C10: every gust admitted to the collection has a direction of unit
euclidean length and a magnitude in [40, 1200] (given that the passed
stroke length is the euclidean length of the stroke); and a tick
changes nothing about a surviving gust except decreasing its life by
dt. -/
theorem gust_creation_invariants :
    (∀ (cfg : Config) (a b : Point) (len e e2 : ℚ) (g : Gust),
       0 ≤ len → len ^ 2 = (b.x - a.x) ^ 2 + (b.y - a.y) ^ 2 →
       createGust cfg a b len e = (some g, e2) →
       g.dirx ^ 2 + g.diry ^ 2 = 1 ∧ 40 ≤ g.magnitude ∧ g.magnitude ≤ 1200) ∧
    (∀ (dt : ℚ) (gs : List Gust) (g2 : Gust), g2 ∈ updateGusts dt gs →
       ∃ g ∈ gs, g2.x = g.x ∧ g2.y = g.y ∧ g2.dirx = g.dirx ∧
         g2.diry = g.diry ∧ g2.magnitude = g.magnitude ∧
         g2.radius = g.radius ∧ g2.maxLife = g.maxLife ∧
         g2.life = g.life - dt) := by
  constructor
  · intro cfg a b len e e2 g hlen hsq heq
    by_cases h20 : len < 20
    · simp [createGust, h20] at heq
    · by_cases hcost : min (len * GUST_COST_PER_PIXEL) e < 10
      · simp [createGust, h20, hcost] at heq
      · have h20le : (20 : ℚ) ≤ len := not_lt.mp h20
        have hpos : 0 < len := by linarith
        have hne : len ≠ 0 := ne_of_gt hpos
        simp only [createGust, if_neg h20, if_neg hcost, normalize,
          if_pos hpos, Prod.mk.injEq, Option.some.injEq] at heq
        obtain ⟨hg, he2⟩ := heq
        subst hg
        refine ⟨?_, ?_, ?_⟩
        · show ((b.x - a.x) / len) ^ 2 + ((b.y - a.y) / len) ^ 2 = 1
          field_simp
          linarith [hsq]
        · show (40 : ℚ) ≤ min (len * 2) GUST_BASE_POWER
          exact le_min (by linarith) (by norm_num [GUST_BASE_POWER])
        · show min (len * 2) GUST_BASE_POWER ≤ 1200
          rw [GUST_BASE_POWER]
          exact min_le_right (len * 2) (1200 : ℚ)
  · intro dt gs g2 hmem
    simp only [updateGusts, List.mem_filterMap] at hmem
    obtain ⟨g, hg, heq⟩ := hmem
    split at heq
    · obtain rfl := Option.some.inj heq
      exact ⟨g, hg, rfl, rfl, rfl, rfl, rfl, rfl, rfl, rfl⟩
    · cases heq

/-- C10 witness: the creation clause applied to a 50 pixel stroke from
(0, 0) to (30, 40) at full energy, producing direction (3/5, 4/5) and
magnitude 100. -/
theorem gust_creation_invariants_witness :
    ((3 : ℚ) / 5) ^ 2 + ((4 : ℚ) / 5) ^ 2 = 1 ∧
    (40 : ℚ) ≤ 100 ∧ (100 : ℚ) ≤ 1200 :=
  gust_creation_invariants.1 cfg0 ⟨0, 0⟩ ⟨30, 40⟩ 50 100 75
    ⟨0, 0, 3 / 5, 4 / 5, 100, 100, 6 / 5, 6 / 5⟩
    (by norm_num) (by norm_num)
    (by norm_num [createGust, normalize, GUST_COST_PER_PIXEL, GUST_BASE_POWER,
      gustRadius, cfg0, GUST_LIFE, min_def, max_def])


end FlappyWind
